import Mathlib

/-!
Shallow embedding of the `usda_nutrition` repository (three Python scripts:
`nutrient_list.py`, `usda_food_list.py`, `usda_foods.py`) and theorems checking
the repository's specification claims against it.

Conventions of the embedding:
* JSON numbers used as nutrient identifiers and amounts are modelled as `ℚ`
  (the scripts compare them by exact value via `float(...)`; every identifier in
  play is a short decimal, exactly representable).
* A Python `None` / missing-key is an `Option`.
* The HTTP transport is an environment: each request attempt is given an
  abstract outcome (`success body`, `httpError status body`, `transportError`),
  mirroring `requests.get` + `raise_for_status` (which raises exactly for
  4xx/5xx statuses).
* Python exceptions that escape a function are explicit result constructors
  (`exn`, `raised`, `crashed`).
-/

namespace Usda

/-- A cell of the output spreadsheet row: either a numeric amount or the
string sentinel `"N/A"` that the scripts write for unavailable values. -/
inductive CellVal
  | num (q : ℚ)
  | na
  deriving DecidableEq, Repr

/-- One catalog entry, as handled by the scripts: a dict with an (optional)
`"fdcId"` key and a `"description"` key.  (`nutrient_list.py` line 103 and
`usda_foods.py` line 165 read `fdcId` with `.get`, so it may be absent;
the description is read with a `"N/A"` default and is always present on the
inputs modelled here, so it is kept as a plain `String`.) -/
structure Food where
  fdcId : Option Int
  description : String
  deriving DecidableEq, Repr

/-- One record of a detail payload's `"foodNutrients"` list: a nested
`"nutrient"` dict (`"number"`, `"name"`, `"unitName"`) plus an `"amount"`
key that may be absent (`amount = none`). -/
structure FoodNutrientRec where
  number : ℚ
  name : String
  unitName : String
  amount : Option ℚ
  deriving DecidableEq, Repr

/-- A parsed JSON object returned by the detail endpoint (or an error body):
the scripts only ever look at its `"foodNutrients"` key, which may be absent
(`none` — in particular any error body lacks it). -/
structure FoodDetails where
  foodNutrients : Option (List FoodNutrientRec)
  deriving DecidableEq, Repr

/-- A parsed JSON error object returned by the list endpoint on HTTP 500: the
scripts only look at its optional `"message"` key. -/
structure ErrJson where
  message : Option String
  deriving DecidableEq, Repr

/-- `charsStartWith cs ps`: the character list `ps` is an initial segment of
`cs`. -/
def charsStartWith : List Char → List Char → Bool
  | _, [] => true
  | [], _ :: _ => false
  | c :: cs, p :: ps => c = p && charsStartWith cs ps

/-- `charsContain cs ps`: `ps` occurs as a contiguous segment of `cs`. -/
def charsContain : List Char → List Char → Bool
  | [], ps => ps.isEmpty
  | c :: cs, ps => charsStartWith (c :: cs) ps || charsContain cs ps

/-- Substring test, modelling Python's `in` on strings. -/
def strContains (s pat : String) : Bool :=
  charsContain s.toList pat.toList

/-- The check at `nutrient_list.py` lines 22-23 / `usda_food_list.py` lines
16-17: `"message" in error_json and "all shards failed" in
error_json["message"]`. -/
def hasAllShardsFailed (e : ErrJson) : Bool :=
  match e.message with
  | some m => strContains m "all shards failed"
  | none => false

/-- Outcome of one `requests.get` on the list endpoint.  `httpError status
errBody` means `raise_for_status` raised (a 4xx/5xx status); `errBody` is the
response body when it parses as JSON (`none` = `response.json()` raises
`JSONDecodeError`).  `transportError` is any other `RequestException`. -/
inductive ListOutcome
  | success (foods : List Food)
  | httpError (status : Nat) (errBody : Option ErrJson)
  | transportError
  deriving Repr

/-- What `fetch_food_list` (identical in `nutrient_list.py` lines 10-38 and
`usda_food_list.py` lines 4-32) hands back to its caller:
* `jsonList foods` — `return response.json()` of a 2xx response (a JSON array);
* `jsonErr e` — `return response.json()` of a 500 error response (the stray
  `return` at `nutrient_list.py` line 36 / `usda_food_list.py` line 30);
* `shardsFailed` — the literal string `"all_shards_failed"`;
* `softNone` — `return None`;
* `exn` — an exception propagates out of the function. -/
inductive FLResult
  | jsonList (foods : List Food)
  | jsonErr (e : ErrJson)
  | shardsFailed
  | softNone
  | exn
  deriving DecidableEq, Repr

/-- One iteration of the `while retries < max_retries` loop of
`fetch_food_list` (`nutrient_list.py` lines 14-36).  `env n` is the outcome of
the `(n+1)`-th `requests.get`.  Branches, by source line:
* line 18: 2xx → `return response.json()`;
* lines 20-30: status 500 → parse the error body; if it carries the
  "all shards failed" message, line 24 returns the marker string; otherwise
  lines 27-30 increment `retries` and sleep, after which control reaches the
  stray line 36 `return response.json()`, which re-parses and returns the 500
  error body (raising if the body is not JSON).  No branch reaches the loop's
  back-edge, so the body never recurses;
* line 32: any other HTTP error status → `raise`;
* lines 33-35: `RequestException` → `return None`.
If the loop guard fails (`retries = max_retries`), lines 37-38 return `None`. -/
def fetch_food_list_iter (env : Nat → ListOutcome)
    (maxRetries retries attempts : Nat) : FLResult × Nat :=
  if retries < maxRetries then
    match env attempts with
    | .success foods => (.jsonList foods, attempts + 1)
    | .httpError status errBody =>
      if status = 500 then
        match errBody with
        | some ej =>
          if hasAllShardsFailed ej then (.shardsFailed, attempts + 1)
          else (.jsonErr ej, attempts + 1)
        | none => (.exn, attempts + 1)
      else (.exn, attempts + 1)
    | .transportError => (.softNone, attempts + 1)
  else (.softNone, attempts)

/-- `fetch_food_list(api_key, page, page_size, max_retries)`: runs the loop
with `retries = 0` and no attempts made yet; returns the function's result
together with the number of `requests.get` calls issued. -/
def fetch_food_list (env : Nat → ListOutcome) (maxRetries : Nat) : FLResult × Nat :=
  fetch_food_list_iter env maxRetries 0 0

/-- Outcome of one `requests.get` on the detail endpoint (same reading as
`ListOutcome`; the body of an error response, when it parses, is an arbitrary
JSON object modelled by `FoodDetails`). -/
inductive DetailOutcome
  | success (d : FoodDetails)
  | httpError (status : Nat) (errBody : Option FoodDetails)
  | transportError
  deriving DecidableEq, Repr

/-- What `nutrient_list.py`'s `fetch_food_details` (lines 40-65) hands back:
a parsed JSON body, `None`, or a propagating exception. -/
inductive NLDetResult
  | json (d : FoodDetails)
  | noneRes
  | exn
  deriving DecidableEq, Repr

/-- One iteration of the `while retries < max_retries` loop of
`nutrient_list.py`'s `fetch_food_details` (lines 44-63).  Branches:
* line 48: 2xx → `return response.json()`;
* lines 50-52: 404 → `return None`;
* lines 53-57: 500 → increment `retries`, sleep, then the stray line 63
  `return response.json()` returns the parsed 500 error body (raising if the
  body is not JSON).  No branch reaches the loop's back-edge;
* line 59: any other HTTP error status → `raise`;
* lines 60-62: `RequestException` → `return None`.
Guard failure (lines 64-65) returns `None`. -/
def fetch_food_details_nl_iter (env : Nat → DetailOutcome)
    (maxRetries retries attempts : Nat) : NLDetResult × Nat :=
  if retries < maxRetries then
    match env attempts with
    | .success d => (.json d, attempts + 1)
    | .httpError status body =>
      if status = 404 then (.noneRes, attempts + 1)
      else if status = 500 then
        match body with
        | some d => (.json d, attempts + 1)
        | none => (.exn, attempts + 1)
      else (.exn, attempts + 1)
    | .transportError => (.noneRes, attempts + 1)
  else (.noneRes, attempts)

/-- `nutrient_list.py`'s `fetch_food_details` with `retries = 0`. -/
def fetch_food_details_nl (env : Nat → DetailOutcome) (maxRetries : Nat) :
    NLDetResult × Nat :=
  fetch_food_details_nl_iter env maxRetries 0 0

/-- `usda_foods.py`'s `append_not_found_id` (lines 41-58): the persisted
dead-letter list is loaded, and the id is appended (and the file rewritten)
only when it is not already present. -/
def append_not_found_id (not_found_ids : List Int) (fdc_id : Int) : List Int :=
  if not_found_ids.contains fdc_id then not_found_ids
  else not_found_ids ++ [fdc_id]

/-- What `usda_foods.py`'s `fetch_food_details` (lines 61-84) hands back:
a parsed JSON body, `None`, or a propagating exception carrying the status. -/
inductive UFDetResult
  | json (d : FoodDetails)
  | noneRes
  | raised (status : Nat)
  deriving DecidableEq, Repr

/-- `usda_foods.py`'s `fetch_food_details` (lines 61-84): a single attempt,
no loop.  404 → dead-letter + `None` (lines 69-72); 500 → dead-letter +
`None` (lines 73-78); any other HTTP error status → `raise` (line 80);
`RequestException` → dead-letter + `None` (lines 81-84).  Returns the result
together with the updated dead-letter list. -/
def fetch_food_details_uf (fdc_id : Int) (o : DetailOutcome) (dl : List Int) :
    UFDetResult × List Int :=
  match o with
  | .success d => (.json d, dl)
  | .httpError status _ =>
    if status = 404 then (.noneRes, append_not_found_id dl fdc_id)
    else if status = 500 then (.noneRes, append_not_found_id dl fdc_id)
    else (.raised status, dl)
  | .transportError => (.noneRes, append_not_found_id dl fdc_id)

/-- An element of `food_nutrients` after the per-record rebuild
(`nutrient_list.py` line 111 / `usda_foods.py` lines 176-183), with the four
fields the subsequent code reads. -/
structure NutrientAmount where
  number : ℚ
  name : String
  unitName : String
  amount : CellVal
  deriving DecidableEq, Repr

/-- `nutrient_list.py` lines 110-113: the comprehension
`[{"nutrient": x["nutrient"], "amount": x["amount"]} for x in food_values]`
raises `KeyError` (→ `none`) as soon as any record lacks `"amount"`. -/
def build_food_nutrients_nl : List FoodNutrientRec → Option (List NutrientAmount)
  | [] => some []
  | r :: rest =>
    match r.amount, build_food_nutrients_nl rest with
    | some q, some l => some (⟨r.number, r.name, r.unitName, .num q⟩ :: l)
    | _, _ => none

/-- `usda_foods.py` lines 176-183: the same comprehension, but a record
lacking `"amount"` gets the `"N/A"` sentinel instead of raising. -/
def build_food_nutrients_uf (food_values : List FoodNutrientRec) : List NutrientAmount :=
  food_values.map fun r =>
    match r.amount with
    | some q => ⟨r.number, r.name, r.unitName, .num q⟩
    | none => ⟨r.number, r.name, r.unitName, .na⟩

/-- `nutrient_list.py` lines 114-118 / `usda_foods.py` lines 184-195: keep
exactly the records whose `float(nutrient["nutrient"]["number"])` is in
`nutrient_ids`. -/
def filter_nutrients (food_nutrients : List NutrientAmount) (nutrient_ids : List ℚ) :
    List NutrientAmount :=
  food_nutrients.filter fun n => nutrient_ids.contains n.number

/-- `nutrient_list.py` lines 121-123 / `usda_foods.py` lines 198-200: the
Python dict `nut_dict` built by `nut_dict[x["nutrient number"]] = x["amount"]`
in list order.  Only `x in nut_dict.keys()` and `nut_dict[x]` are ever applied
to it, so assignment is modelled as a cons with leftmost-match lookup: the
most recent assignment to a key is the one found. -/
def build_nut_dict (nutrient_list : List NutrientAmount) : List (ℚ × CellVal) :=
  nutrient_list.foldl (fun d n => (n.number, n.amount) :: d) []

/-- Leftmost-match association-list lookup (`nut_dict[x]` on the model above,
`none` = key absent). -/
def lookupVal : List (ℚ × CellVal) → ℚ → Option CellVal
  | [], _ => none
  | (k, v) :: rest, x => if k = x then some v else lookupVal rest x

/-- `nutrient_list.py` lines 124-128 / `usda_foods.py` lines 201-205: walk
the module-level `nutrients_numbers` in order, emitting `nut_dict[x]` when
`x in nut_dict.keys()` and the `"N/A"` sentinel otherwise. -/
def emit_vals (nut_dict : List (ℚ × CellVal)) (nutrients_numbers : List ℚ) :
    List CellVal :=
  nutrients_numbers.map fun x =>
    match lookupVal nut_dict x with
    | some v => v
    | none => .na

/-- The full projection of a rebuilt `food_nutrients` list onto the output
columns: filter by the `nutrient_ids` parameter, build `nut_dict`, then emit
in the order of the module-level `nutrients_numbers` list (the source uses
two different lists here; every call site passes the same list for both). -/
def project_vals (food_nutrients : List NutrientAmount)
    (nutrient_ids nutrients_numbers : List ℚ) : List CellVal :=
  emit_vals (build_nut_dict (filter_nutrients food_nutrients nutrient_ids))
    nutrients_numbers

/-- How the `while True` pagination loop ends (`nutrient_list.py` lines 93-99
/ `usda_food_list.py` lines 40-46), given a finite prefix of per-page
`fetch_food_list` results:
* `stopped entries` — the `break` on the `"all_shards_failed"` marker fired
  and the entries gathered so far flow on to the sort;
* `crashed entries` — an exception terminated the loop (`extend(None)` raises
  `TypeError`; an exception from `fetch_food_list` propagates; or an earlier
  500 error body was `extend`ed, so its string keys make the later
  `sorted(..., key=lambda item: item["description"])` raise);
* `running entries` — every supplied page result was consumed without the
  loop terminating: the loop is still issuing further page requests. -/
inductive PagEnd
  | stopped (entries : List Food)
  | crashed (entries : List Food)
  | running (entries : List Food)
  deriving DecidableEq, Repr

/-- The pagination loop itself.  `tainted` records that a 500 error body was
`extend`ed into `all_food_list` (its keys are strings, so the post-loop sort
would raise), making a later `break` end in a crash rather than a normal
stop.  Note there is no empty-page test: `.jsonList []` just extends the
accumulator with nothing and the loop proceeds to the next page. -/
def paginate_loop : List FLResult → List Food → Bool → PagEnd
  | [], acc, _ => .running acc
  | r :: rest, acc, tainted =>
    match r with
    | .shardsFailed => if tainted then .crashed acc else .stopped acc
    | .jsonList foods => paginate_loop rest (acc ++ foods) tainted
    | .jsonErr _ => paginate_loop rest acc true
    | .softNone => .crashed acc
    | .exn => .crashed acc

/-- Lexicographic less-or-equal on character lists by code point — the order
Python's `sorted` uses on the `str` sort keys. -/
def charListLe : List Char → List Char → Bool
  | [], _ => true
  | _ :: _, [] => false
  | a :: as, b :: bs =>
    if a.toNat < b.toNat then true
    else if b.toNat < a.toNat then false
    else charListLe as bs

theorem charListLe_total : ∀ as bs, charListLe as bs = true ∨ charListLe bs as = true
  | [], _ => Or.inl rfl
  | _ :: _, [] => Or.inr rfl
  | a :: as, b :: bs => by
    rcases Nat.lt_trichotomy a.toNat b.toNat with h | h | h
    · left
      simp only [charListLe]
      rw [if_pos h]
    · have h1 : ¬ a.toNat < b.toNat := by omega
      have h2 : ¬ b.toNat < a.toNat := by omega
      simp only [charListLe, if_neg h1, if_neg h2]
      exact charListLe_total as bs
    · right
      simp only [charListLe]
      rw [if_pos h]

theorem charListLe_trans : ∀ as bs cs, charListLe as bs = true →
    charListLe bs cs = true → charListLe as cs = true
  | [], _, _, _, _ => rfl
  | _ :: _, [], _, h1, _ => by simp [charListLe] at h1
  | _ :: _, _ :: _, [], _, h2 => by simp [charListLe] at h2
  | a :: as, b :: bs, c :: cs, h1, h2 => by
    simp only [charListLe] at h1 h2 ⊢
    rcases Nat.lt_trichotomy a.toNat b.toNat with hab | hab | hab
    · rcases Nat.lt_trichotomy b.toNat c.toNat with hbc | hbc | hbc
      · rw [if_pos (by omega : a.toNat < c.toNat)]
      · rw [if_pos (by omega : a.toNat < c.toNat)]
      · rw [if_neg (by omega : ¬ b.toNat < c.toNat), if_pos hbc] at h2
        simp at h2
    · rw [if_neg (by omega : ¬ a.toNat < b.toNat),
        if_neg (by omega : ¬ b.toNat < a.toNat)] at h1
      rcases Nat.lt_trichotomy b.toNat c.toNat with hbc | hbc | hbc
      · rw [if_pos (by omega : a.toNat < c.toNat)]
      · rw [if_neg (by omega : ¬ b.toNat < c.toNat),
          if_neg (by omega : ¬ c.toNat < b.toNat)] at h2
        rw [if_neg (by omega : ¬ a.toNat < c.toNat),
          if_neg (by omega : ¬ c.toNat < a.toNat)]
        exact charListLe_trans as bs cs h1 h2
      · rw [if_neg (by omega : ¬ b.toNat < c.toNat), if_pos hbc] at h2
        simp at h2
    · rw [if_neg (by omega : ¬ a.toNat < b.toNat), if_pos hab] at h1
      simp at h1

/-- String comparison by code points, as Python's `sorted` compares `str`
keys. -/
def strLeB (s t : String) : Bool := charListLe s.toList t.toList

/-- The comparison of the post-loop sort: `nutrient_list.py` line 101 sorts
by `item["description"]` (and `usda_food_list.py` line 48 does the same after
projecting each entry to its `fdcId`/`description` pair, which is already the
whole of `Food` here). -/
def descLe (a b : Food) : Prop := strLeB a.description b.description = true

instance : DecidableRel descLe := fun a b =>
  inferInstanceAs (Decidable (strLeB a.description b.description = true))

instance : IsTotal Food descLe :=
  ⟨fun a b => charListLe_total a.description.toList b.description.toList⟩

instance : IsTrans Food descLe :=
  ⟨fun a b c h h2 =>
    charListLe_trans a.description.toList b.description.toList
      c.description.toList h h2⟩

/-- The catalog as it leaves the paginator: `sorted(all_food_list,
key=lambda item: item["description"])` (`nutrient_list.py` line 101 /
`usda_food_list.py` line 48).  Python's `sorted` is a stable comparison sort;
`List.insertionSort` is a stable sort by the same key, so the two agree. -/
def catalog_output (all_food_list : List Food) : List Food :=
  List.insertionSort descLe all_food_list

/-- One output row: `row_data = [fdc_id, description] + nutrient_vals`. -/
structure Row where
  fdcId : Int
  description : String
  vals : List CellVal
  deriving DecidableEq, Repr

/-- How `nutrient_list.py`'s `main_method` per-entry loop (lines 102-137)
ends:
* `completed rows` — the loop ran through every entry; the final save at
  lines 139-143 executes;
* `broke rows` — the bare `except: break` at lines 112-113 fired; the loop
  exits early but the final save at lines 139-143 still executes;
* `crashed rows` — an uncaught exception (a `raise` out of
  `fetch_food_details`) propagates out of `main_method`; the final save is
  skipped. -/
inductive NLRunEnd
  | completed (rows : List Row)
  | broke (rows : List Row)
  | crashed (rows : List Row)
  deriving DecidableEq, Repr

/-- The per-entry loop of `nutrient_list.py`'s `main_method` (lines 102-137).
Each catalog entry comes with the HTTP outcome its single detail request
would receive (`fetch_food_details` decides on the first attempt on every
path, so one outcome per entry is exhaustive).  Steps, by source line:
* 103-104: `fdc_id = food.get("fdcId"); if fdc_id:` — a missing or zero id
  (both falsy) skips the entry;
* 106: `fetch_food_details` with the default `max_retries=3`;
* 107: process only when the result is truthy, has the `"foodNutrients"`
  key, and that list is non-empty;
* 110-113: rebuild `food_nutrients`, `break` on a missing `"amount"`;
* 114-130: filter, and when `nutrient_list` is non-empty build `nut_dict`,
  emit the values over the module-level `nutrients_numbers` and append the
  row. -/
def iterate_nl (nutrient_ids nutrients_numbers : List ℚ) :
    List (Food × DetailOutcome) → List Row → NLRunEnd
  | [], rows => .completed rows
  | (f, o) :: rest, rows =>
    match f.fdcId with
    | none => iterate_nl nutrient_ids nutrients_numbers rest rows
    | some i =>
      if i = 0 then iterate_nl nutrient_ids nutrients_numbers rest rows
      else
        match (fetch_food_details_nl (fun _ => o) 3).1 with
        | .exn => .crashed rows
        | .noneRes => iterate_nl nutrient_ids nutrients_numbers rest rows
        | .json d =>
          match d.foodNutrients with
          | none => iterate_nl nutrient_ids nutrients_numbers rest rows
          | some [] => iterate_nl nutrient_ids nutrients_numbers rest rows
          | some (v :: vs) =>
            match build_food_nutrients_nl (v :: vs) with
            | none => .broke rows
            | some fns =>
              let nutrient_list := filter_nutrients fns nutrient_ids
              if nutrient_list.isEmpty then
                iterate_nl nutrient_ids nutrients_numbers rest rows
              else
                iterate_nl nutrient_ids nutrients_numbers rest
                  (rows ++ [⟨i, f.description,
                    emit_vals (build_nut_dict nutrient_list) nutrients_numbers⟩])

/-- How `usda_foods.py`'s `main_method` per-entry loop (lines 164-216) ends:
`completed` reaches the final save (lines 218-224); `crashed` means an
uncaught exception (the `raise` at line 80 of `fetch_food_details`)
propagated out of `main_method`, skipping the final save.  Both carry the
rows appended and the dead-letter list as persisted so far. -/
inductive UFRunEnd
  | completed (rows : List Row) (dl : List Int)
  | crashed (rows : List Row) (dl : List Int)
  deriving DecidableEq, Repr

/-- The per-entry loop of `usda_foods.py`'s `main_method` (lines 164-216),
threading the persisted dead-letter list through `fetch_food_details`.
Structure mirrors `iterate_nl`, except that a record lacking `"amount"` gets
the sentinel (lines 176-183) instead of breaking, and rows are appended at
lines 196-207. -/
def iterate_uf (nutrient_ids nutrients_numbers : List ℚ) :
    List (Food × DetailOutcome) → List Row → List Int → UFRunEnd
  | [], rows, dl => .completed rows dl
  | (f, o) :: rest, rows, dl =>
    match f.fdcId with
    | none => iterate_uf nutrient_ids nutrients_numbers rest rows dl
    | some i =>
      if i = 0 then iterate_uf nutrient_ids nutrients_numbers rest rows dl
      else
        match fetch_food_details_uf i o dl with
        | (.raised _, dl2) => .crashed rows dl2
        | (.noneRes, dl2) => iterate_uf nutrient_ids nutrients_numbers rest rows dl2
        | (.json d, dl2) =>
          match d.foodNutrients with
          | none => iterate_uf nutrient_ids nutrients_numbers rest rows dl2
          | some [] => iterate_uf nutrient_ids nutrients_numbers rest rows dl2
          | some (v :: vs) =>
            let fns := build_food_nutrients_uf (v :: vs)
            let nutrient_list := filter_nutrients fns nutrient_ids
            if nutrient_list.isEmpty then
              iterate_uf nutrient_ids nutrients_numbers rest rows dl2
            else
              iterate_uf nutrient_ids nutrients_numbers rest
                (rows ++ [⟨i, f.description,
                  emit_vals (build_nut_dict nutrient_list) nutrients_numbers⟩]) dl2

/-- The membership test of the `Filtering` list comprehension
(`usda_foods.py` line 152): `food.get("fdcId") not in existing_fdc_ids`,
negated.  A `None` id is never a member of a set of ints. -/
def memb_existing (existing : List Int) (f : Food) : Bool :=
  match f.fdcId with
  | some i => existing.contains i
  | none => false

/-- `usda_foods.py` lines 151-153: keep the foods whose id is not among the
loaded existing keys. -/
def filter_food_data (food_data : List Food) (existing : List Int) : List Food :=
  food_data.filter fun f => !memb_existing existing f

/-- `usda_foods.py` line 159: `filtered_food_data[:amount_foods_to_process]`
— the whole list when the argument is `None`, else the first `n` elements
(the operator-supplied cap is a count, modelled as a `Nat`). -/
def truncate_food_data (l : List Food) (amount_foods_to_process : Option Nat) :
    List Food :=
  match amount_foods_to_process with
  | none => l
  | some n => l.take n

/-- The whole `Filtering` phase of `usda_foods.py`'s `main_method`
(lines 151-159): filter against the existing-key set, then truncate. -/
def filtering_phase (food_data : List Food) (existing : List Int)
    (amount : Option Nat) : List Food :=
  truncate_food_data (filter_food_data food_data existing) amount

/-- Modelled from the spec: the `Filtering` phase as the spec describes it —
it "removes entries whose id is in the loaded existing-keys set or the
dead-letter set, and optionally caps the remaining entries".  The source's
`Filtering` (`usda_foods.py` lines 151-159) has no dead-letter parameter at
all; this definition exists to be compared with `filtering_phase`. -/
def filtering_phase_spec (food_data : List Food) (existing deadletters : List Int)
    (amount : Option Nat) : List Food :=
  truncate_food_data
    (food_data.filter fun f =>
      !memb_existing existing f && !memb_existing deadletters f) amount

/-- The amount carried by the last record of `l` whose identifier is `k`
(`none` if no record has identifier `k`). -/
def lastAmountOf : List NutrientAmount → ℚ → Option CellVal
  | [], _ => none
  | n :: rest, k =>
    match lastAmountOf rest k with
    | some v => some v
    | none => if n.number = k then some n.amount else none

theorem lookupVal_foldl (l : List NutrientAmount) :
    ∀ (d : List (ℚ × CellVal)) (k : ℚ),
      lookupVal (l.foldl (fun d n => (n.number, n.amount) :: d) d) k
        = (lastAmountOf l k).elim (lookupVal d k) some := by
  induction l with
  | nil => intro d k; rfl
  | cons n rest ih =>
    intro d k
    simp only [List.foldl_cons, ih, lastAmountOf]
    cases lastAmountOf rest k with
    | some v => rfl
    | none =>
      simp only [Option.elim]
      by_cases h : n.number = k
      · rw [if_pos h]
        show (if n.number = k then some n.amount else lookupVal d k) = some n.amount
        rw [if_pos h]
      · rw [if_neg h]
        show (if n.number = k then some n.amount else lookupVal d k) = lookupVal d k
        rw [if_neg h]

/-- Looking a key up in `nut_dict` yields the amount of the **last**
assignment to that key, i.e. of the last payload record carrying it. -/
theorem lookupVal_build_nut_dict (l : List NutrientAmount) (k : ℚ) :
    lookupVal (build_nut_dict l) k = lastAmountOf l k := by
  rw [build_nut_dict, lookupVal_foldl]
  cases lastAmountOf l k <;> rfl

theorem lastAmountOf_eq_none (l : List NutrientAmount) (k : ℚ)
    (h : ∀ n ∈ l, n.number ≠ k) : lastAmountOf l k = none := by
  induction l with
  | nil => rfl
  | cons n rest ih =>
    simp only [lastAmountOf, ih fun m hm => h m (List.mem_cons_of_mem n hm),
      if_neg (h n (List.mem_cons_self n rest))]

theorem build_food_nutrients_nl_eq_none (l : List FoodNutrientRec)
    (h : ∃ r ∈ l, r.amount = none) : build_food_nutrients_nl l = none := by
  induction l with
  | nil => simp at h
  | cons r rest ih =>
    rcases h with ⟨x, hx, hxa⟩
    rcases List.mem_cons.mp hx with rfl | hx2
    · simp [build_food_nutrients_nl, hxa]
    · simp [build_food_nutrients_nl, ih ⟨x, hx2, hxa⟩]

/-- Consuming a block of ordinary (possibly empty) JSON-array pages just
extends the accumulator with their concatenation. -/
theorem paginate_loop_jsonList (pres : List (List Food)) :
    ∀ (rest : List FLResult) (acc : List Food) (t : Bool),
      paginate_loop (pres.map FLResult.jsonList ++ rest) acc t
        = paginate_loop rest (acc ++ pres.flatten) t := by
  induction pres with
  | nil => intro rest acc t; simp
  | cons p ps ih =>
    intro rest acc t
    simp only [List.map_cons, List.cons_append, paginate_loop, List.append_eq,
      ih, List.flatten_cons, List.append_assoc]

/-- C2 counterexample: fed three non-empty pages and then one empty page, the
pagination loop has **not** terminated — it has consumed all four supplied
page results and is still running (it will request a fifth page); in
particular its state is not the claimed "stopped with exactly the three
pages' entries". -/
theorem claim2_counterexample :
    paginate_loop [FLResult.jsonList [⟨some 1, "a"⟩], FLResult.jsonList [⟨some 2, "b"⟩],
        FLResult.jsonList [⟨some 3, "c"⟩], FLResult.jsonList []] [] false
      = PagEnd.running [⟨some 1, "a"⟩, ⟨some 2, "b"⟩, ⟨some 3, "c"⟩]
    ∧ paginate_loop [FLResult.jsonList [⟨some 1, "a"⟩], FLResult.jsonList [⟨some 2, "b"⟩],
        FLResult.jsonList [⟨some 3, "c"⟩], FLResult.jsonList []] [] false
      ≠ PagEnd.stopped [⟨some 1, "a"⟩, ⟨some 2, "b"⟩, ⟨some 3, "c"⟩] := by
  constructor
  · decide
  · decide

/-- C2 (amended): the pagination loop does not terminate on an empty page —
after consuming any sequence of ordinary JSON-array pages (empty ones
included, which contribute no entries) it is still running — and it
terminates exactly when a page result is the `"all_shards_failed"` marker,
returning the concatenated entries of all preceding pages. -/
theorem paginate_stops_only_on_shards_marker (pres : List (List Food))
    (rest : List FLResult) :
    paginate_loop (pres.map FLResult.jsonList) [] false = PagEnd.running pres.flatten
    ∧ paginate_loop (pres.map FLResult.jsonList ++ FLResult.shardsFailed :: rest) [] false
      = PagEnd.stopped pres.flatten := by
  constructor
  · have h := paginate_loop_jsonList pres [] [] false
    simpa using h
  · have h := paginate_loop_jsonList pres (FLResult.shardsFailed :: rest) [] false
    simpa [paginate_loop] using h

/-- C3: with every request outcome an HTTP 500 (no shards marker) and
`max_retries=3`, the fetch functions do **not** make three attempts: the
stray `return response.json()` after the `except` block exits the retry loop
on its first iteration, so exactly one request is issued and the parsed 500
**error body** — not `None` — is returned to the caller.  This contradicts
the loop's own `"Retrying in ... seconds"` and `"Max retries reached"`
messages (the latter is unreachable), so the code, not the claim, is at
fault. -/
theorem claim3_retry_loop_defeated :
    fetch_food_list (fun _ => .httpError 500 (some ⟨some "Internal Server Error"⟩)) 3
      = (.jsonErr ⟨some "Internal Server Error"⟩, 1)
    ∧ fetch_food_details_nl (fun _ => .httpError 500 (some ⟨none⟩)) 3
      = (.json ⟨none⟩, 1) := by
  constructor
  · decide
  · decide

/-- C4 counterexample: a payload with two records for identifier 203 and
different amounts (1 then 2) projects to the **last**-seen amount 2, not the
first-seen amount 1 as the claim states (`nut_dict[...] = ...` is a plain
dict assignment, so later occurrences overwrite earlier ones). -/
theorem claim4_counterexample :
    project_vals [⟨203, "Protein", "g", .num 1⟩, ⟨203, "Protein", "g", .num 2⟩]
        [203, 208] [203, 208]
      = [CellVal.num 2, CellVal.na]
    ∧ CellVal.num 2 ≠ CellVal.num 1 := by
  constructor
  · decide
  · decide

/-- C4 (amended): on duplicate identifiers within one payload the **last**
occurrence wins — the value the projection reads for a key is the amount of
the last record in payload order carrying that key. -/
theorem nut_dict_last_occurrence_wins (l : List NutrientAmount) (k : ℚ) :
    lookupVal (build_nut_dict l) k = lastAmountOf l k :=
  lookupVal_build_nut_dict l k

/-- C5 counterexample: an entry whose id (7) is in the dead-letter set but
not among the existing keys **survives** the source's `Filtering` phase,
whereas the claimed filter (modelled from the spec, removing dead-lettered
ids as well) removes it — the phase never consults the dead-letter set. -/
theorem claim5_counterexample :
    filtering_phase [⟨some 7, "x"⟩] [] none = [⟨some 7, "x"⟩]
    ∧ filtering_phase_spec [⟨some 7, "x"⟩] [] [7] none = []
    ∧ filtering_phase [⟨some 7, "x"⟩] [] none
      ≠ filtering_phase_spec [⟨some 7, "x"⟩] [] [7] none := by
  refine ⟨by decide, by decide, by decide⟩

/-- C5 (amended): the `Filtering` phase removes exactly those entries whose
id is in the loaded existing-keys set — the dead-letter set plays no part —
and then optionally truncates the remainder to the operator-specified
count. -/
theorem filtering_phase_existing_only (food_data : List Food)
    (existing : List Int) (n : Nat) (f : Food) :
    (f ∈ filter_food_data food_data existing
      ↔ f ∈ food_data ∧ memb_existing existing f = false)
    ∧ filtering_phase food_data existing none = filter_food_data food_data existing
    ∧ filtering_phase food_data existing (some n)
      = (filter_food_data food_data existing).take n := by
  refine ⟨?_, rfl, rfl⟩
  simp [filter_food_data, List.mem_filter]

/-- C6 counterexample: two distinct catalog entries sharing id 1 both appear
in the paginator's final output — entries sharing an id are not folded to
the first occurrence. -/
theorem claim6_counterexample :
    catalog_output [⟨some 1, "a"⟩, ⟨some 1, "b"⟩] = [⟨some 1, "a"⟩, ⟨some 1, "b"⟩]
    ∧ (⟨some 1, "a"⟩ : Food) ≠ ⟨some 1, "b"⟩
    ∧ (Food.mk (some 1) "a").fdcId = (Food.mk (some 1) "b").fdcId := by
  refine ⟨by decide, by decide, rfl⟩

/-- C6 (amended): the paginator's final output is deterministically sorted
by displayKey (description), but it is a permutation of the collected
listing — no de-duplication by id takes place, so entries sharing an id all
survive. -/
theorem catalog_output_sorted_perm (l : List Food) :
    List.Perm (catalog_output l) l ∧ List.Sorted descLe (catalog_output l) :=
  ⟨List.perm_insertionSort descLe l, List.sorted_insertionSort descLe l⟩

/-- C7 counterexample: a 500 response carrying the "all shards failed"
marker is **not** handled like a generic 500 and is **not** retried: on the
very first such response (one single attempt, not the three of an exhausted
retry budget) `fetch_food_list` returns the termination marker, while a
generic 500 yields a different result (the parsed error body), and the
pagination loop stops as soon as it sees the marker. -/
theorem claim7_counterexample :
    fetch_food_list (fun _ => .httpError 500 (some ⟨some "all shards failed"⟩)) 3
      = (.shardsFailed, 1)
    ∧ (fetch_food_list (fun _ => .httpError 500 (some ⟨some "all shards failed"⟩)) 3).2 ≠ 3
    ∧ fetch_food_list (fun _ => .httpError 500 (some ⟨some "all shards failed"⟩)) 3
      ≠ fetch_food_list (fun _ => .httpError 500 (some ⟨some "Generic error"⟩)) 3
    ∧ paginate_loop [.shardsFailed] [] false = PagEnd.stopped [] := by
  refine ⟨by decide, by decide, by decide, by decide⟩

/-- C7 (amended): a page request whose first outcome is an HTTP 500 with the
"all shards failed" marker makes `fetch_food_list` return the termination
signal immediately — a single attempt, no retry — and the pagination loop,
upon receiving that signal, stops at once and returns everything gathered so
far. -/
theorem shards_marker_stops_immediately (env : Nat → ListOutcome) (e : ErrJson)
    (rest : List FLResult) (acc : List Food)
    (h0 : env 0 = .httpError 500 (some e)) (hm : hasAllShardsFailed e = true) :
    fetch_food_list env 3 = (.shardsFailed, 1)
    ∧ paginate_loop (FLResult.shardsFailed :: rest) acc false = PagEnd.stopped acc := by
  constructor
  · simp [fetch_food_list, fetch_food_list_iter, h0, hm]
  · rfl

/-- C7 witness: the amended statement holds at a concrete marker-carrying
500 environment. -/
theorem shards_marker_stops_immediately_witness :
    fetch_food_list (fun _ => .httpError 500 (some ⟨some "all shards failed"⟩)) 3
      = (.shardsFailed, 1)
    ∧ paginate_loop [FLResult.shardsFailed] [] false = PagEnd.stopped [] :=
  shards_marker_stops_immediately
    (fun _ => .httpError 500 (some ⟨some "all shards failed"⟩))
    ⟨some "all shards failed"⟩ [] [] rfl (by decide)

/-- C9: recording an id in the dead-letter file is idempotent — starting
from any duplicate-free persisted list, recording an id twice leaves exactly
one occurrence of it; recording an id that is already present changes
nothing, and the second of two consecutive records of the same id is always
a no-op. -/
theorem append_not_found_id_idempotent (s : List Int) (i : Int) (hs : s.Nodup) :
    (append_not_found_id (append_not_found_id s i) i).count i = 1
    ∧ (i ∈ s → append_not_found_id s i = s)
    ∧ append_not_found_id (append_not_found_id s i) i = append_not_found_id s i := by
  by_cases hm : i ∈ s
  · have h1 : append_not_found_id s i = s := by
      simp [append_not_found_id, hm]
    refine ⟨?_, fun _ => h1, by rw [h1, h1]⟩
    rw [h1, h1]
    exact List.count_eq_one_of_mem hs hm
  · have h1 : append_not_found_id s i = s ++ [i] := by
      simp [append_not_found_id, hm]
    have h2 : append_not_found_id (s ++ [i]) i = s ++ [i] := by
      simp [append_not_found_id]
    refine ⟨?_, fun hin => absurd hin hm, by rw [h1, h2]⟩
    rw [h1, h2, List.count_append, List.count_eq_zero_of_not_mem hm]
    simp

/-- C9 witness: idempotence of dead-letter recording at the concrete
starting list `[5]` and id `7`. -/
theorem append_not_found_id_idempotent_witness :
    (append_not_found_id (append_not_found_id [5] 7) 7).count 7 = 1
    ∧ ((7 : Int) ∈ [(5 : Int)] → append_not_found_id [5] 7 = [5])
    ∧ append_not_found_id (append_not_found_id [5] 7) 7 = append_not_found_id [5] 7 :=
  append_not_found_id_idempotent [5] 7 (by decide)


theorem getD_map_of_lt (g : ℚ → CellVal) :
    ∀ (spec : List ℚ) (i : Nat), i < spec.length →
      ∀ d, (spec.map g).getD i d = g (spec.getD i 0)
  | [], i, hi => by simp at hi
  | _ :: _, 0, _ => fun _ => rfl
  | _ :: as, i + 1, hi => fun d => by
    have h := getD_map_of_lt g as i (by simpa using hi) d
    simpa [List.getD_cons_succ] using h

/-- C1 counterexample: a detail request answered with HTTP 403 (non-2xx, not
404/429/5xx, hence `Fatal` in the spec's taxonomy) makes the run **crash**:
the entry is not dead-lettered (the dead-letter list stays `[]`), the
following catalog entry is never fetched, and the final save is skipped —
not the claimed "dead-letter the entry and continue with the remaining
entries" (which would have produced the completed run on the right of the
inequality). -/
theorem claim1_counterexample :
    iterate_uf [203] [203]
      [(⟨some 5, "x"⟩, .httpError 403 none),
       (⟨some 6, "y"⟩, .success ⟨some [⟨203, "Protein", "g", some 1⟩]⟩)] [] []
      = UFRunEnd.crashed [] []
    ∧ iterate_uf [203] [203]
      [(⟨some 5, "x"⟩, .httpError 403 none),
       (⟨some 6, "y"⟩, .success ⟨some [⟨203, "Protein", "g", some 1⟩]⟩)] [] []
      ≠ UFRunEnd.completed [⟨6, "y", [CellVal.num 1]⟩] [5] := by
  refine ⟨by decide, by decide⟩

/-- C1 (amended): a detail response whose status is 4xx but neither 404 nor
429 (the claim's "classified Fatal" statuses that `raise_for_status` raises
on) makes the per-entry detail fetch raise, and neither pipeline catches it:
the exception aborts the entire run — the entry is not dead-lettered, no
remaining entry is processed, and the final save is skipped. -/
theorem fatal_status_aborts_run (ids nums : List ℚ) (f : Food) (i : Int)
    (s : Nat) (body : Option FoodDetails) (rest : List (Food × DetailOutcome))
    (rows : List Row) (dl : List Int)
    (hf : f.fdcId = some i) (hi : i ≠ 0) (h4 : 400 ≤ s) (h5 : s < 500)
    (h404 : s ≠ 404) (_h429 : s ≠ 429) :
    iterate_uf ids nums ((f, .httpError s body) :: rest) rows dl
      = UFRunEnd.crashed rows dl
    ∧ iterate_nl ids nums ((f, .httpError s body) :: rest) rows
      = NLRunEnd.crashed rows := by
  have h500 : s ≠ 500 := by omega
  constructor
  · simp [iterate_uf, hf, hi, fetch_food_details_uf, h404, h500]
  · simp [iterate_nl, hf, hi, fetch_food_details_nl, fetch_food_details_nl_iter,
      h404, h500]

/-- C1 witness: the amended statement at a concrete 403 response. -/
theorem fatal_status_aborts_run_witness :
    iterate_uf [203] [203] [(⟨some 5, "x"⟩, .httpError 403 none)] [] []
      = UFRunEnd.crashed [] []
    ∧ iterate_nl [203] [203] [(⟨some 5, "x"⟩, .httpError 403 none)] []
      = NLRunEnd.crashed [] :=
  fatal_status_aborts_run [203] [203] ⟨some 5, "x"⟩ 5 403 none [] [] []
    rfl (by decide) (by decide) (by decide) (by decide) (by decide)

/-- C8: projection emits exactly one value per NutrientSpec identifier, in
spec order; it is insensitive to payload attributes whose identifier is
outside the spec (they are silently dropped); a requested identifier carried
by no payload record yields the `"N/A"` sentinel; and on the spec's concrete
example — NutrientSpec `[(203, Protein), (208, Energy)]` against payload
attributes `{203: 12.5, 999: 3.0}` — the projected values are
`[12.5, "N/A"]`. -/
theorem projection_narrowing :
    (∀ (payload : List NutrientAmount) (spec : List ℚ),
      (project_vals payload spec spec).length = spec.length
      ∧ project_vals payload spec spec
        = project_vals (filter_nutrients payload spec) spec spec
      ∧ (∀ i, i < spec.length → (∀ n ∈ payload, n.number ≠ spec.getD i 0) →
          (project_vals payload spec spec).getD i (CellVal.num 0) = CellVal.na))
    ∧ project_vals [⟨203, "Protein", "g", .num (25/2)⟩, ⟨999, "X", "g", .num 3⟩]
        [203, 208] [203, 208]
      = [CellVal.num (25/2), CellVal.na] := by
  constructor
  · intro payload spec
    refine ⟨by simp [project_vals, emit_vals], ?_, ?_⟩
    · simp [project_vals, filter_nutrients, List.filter_filter, Bool.and_self]
    · intro i hi hn
      have hx : ∀ n ∈ filter_nutrients payload spec, n.number ≠ spec.getD i 0 :=
        fun n hnf => hn n (List.mem_of_mem_filter hnf)
      have hnone :
          lookupVal (build_nut_dict (filter_nutrients payload spec)) (spec.getD i 0)
            = none := by
        rw [lookupVal_build_nut_dict]
        exact lastAmountOf_eq_none _ _ hx
      have hrw : project_vals payload spec spec
          = spec.map (fun x =>
              match lookupVal (build_nut_dict (filter_nutrients payload spec)) x with
              | some v => v
              | none => CellVal.na) := rfl
      rw [hrw, getD_map_of_lt _ spec i hi, hnone]
  · rfl

/-- C8 witness: the projection facts at the spec's concrete example (index 1
carries identifier 208, which no payload record has). -/
theorem projection_narrowing_witness :
    (project_vals [⟨203, "Protein", "g", .num (25/2)⟩, ⟨999, "X", "g", .num 3⟩]
        [203, 208] [203, 208]).getD 1 (CellVal.num 0) = CellVal.na
    ∧ (project_vals [⟨203, "Protein", "g", .num (25/2)⟩, ⟨999, "X", "g", .num 3⟩]
        [203, 208] [203, 208]).length = 2 :=
  ⟨(projection_narrowing.1 [⟨203, "Protein", "g", .num (25/2)⟩, ⟨999, "X", "g", .num 3⟩]
      [203, 208]).2.2 1 (by decide) (by decide),
   ((projection_narrowing.1 [⟨203, "Protein", "g", .num (25/2)⟩, ⟨999, "X", "g", .num 3⟩]
      [203, 208]).1).trans rfl⟩

/-- C10: in the merged pipeline (`nutrient_list.py`), a fetched detail
payload containing a record without the `"amount"` key makes the per-entry
loop `break` immediately: the iteration ends as `broke` — no remaining
catalog entry is fetched, projected or appended, while the final workbook
save (which follows the loop) still executes — whereas `usda_foods.py` on
the very same payload substitutes the `"N/A"` sentinel for the missing
amount, appends the row, and continues with the remaining entries. -/
theorem missing_amount_breaks_nl_run :
    (∀ (ids nums : List ℚ) (f : Food) (i : Int) (v : FoodNutrientRec)
        (vs : List FoodNutrientRec) (rest : List (Food × DetailOutcome))
        (rows : List Row),
      f.fdcId = some i → i ≠ 0 → (∃ r ∈ v :: vs, r.amount = none) →
      iterate_nl ids nums ((f, .success ⟨some (v :: vs)⟩) :: rest) rows
        = NLRunEnd.broke rows)
    ∧ iterate_uf [203] [203]
        [(⟨some 5, "x"⟩, .success ⟨some [⟨203, "Protein", "g", none⟩]⟩),
         (⟨some 6, "y"⟩, .success ⟨some [⟨203, "Protein", "g", some 7⟩]⟩)] [] []
      = UFRunEnd.completed [⟨5, "x", [CellVal.na]⟩, ⟨6, "y", [CellVal.num 7]⟩] [] := by
  constructor
  · intro ids nums f i v vs rest rows hf hi hex
    have hb := build_food_nutrients_nl_eq_none (v :: vs) hex
    simp [iterate_nl, hf, hi, fetch_food_details_nl, fetch_food_details_nl_iter, hb]
  · decide

/-- C10 witness: on a concrete two-entry catalog whose first detail payload
has a record without `"amount"`, the merged pipeline breaks with no rows
(the second entry is never processed). -/
theorem missing_amount_breaks_nl_run_witness :
    iterate_nl [203] [203]
      [(⟨some 5, "x"⟩, .success ⟨some [⟨203, "Protein", "g", none⟩]⟩),
       (⟨some 6, "y"⟩, .success ⟨some [⟨203, "Protein", "g", some 7⟩]⟩)] []
      = NLRunEnd.broke [] :=
  missing_amount_breaks_nl_run.1 [203] [203] ⟨some 5, "x"⟩ 5
    ⟨203, "Protein", "g", none⟩ []
    [(⟨some 6, "y"⟩, .success ⟨some [⟨203, "Protein", "g", some 7⟩]⟩)] []
    rfl (by decide) (by decide)

end Usda
